import Mathlib

/-!
Verification of the simple-driver-for-linux character-device driver.

The repository under verification has two source files:
  * `src/simplelinuxdriver/device_file.h` — declares the two lifecycle entry
    points: `__must_check int register_device(void);` (returns 0 if OK) and
    `void unregister_device(void);`.
  * `src/simplelinuxdriver/main.c` — the module-load/unload glue:
    `simple_driver_init` logs a line, calls `register_device()` once and
    returns its result; `simple_driver_exit` logs a line and calls
    `unregister_device()` once, unconditionally.

The implementation of `register_device`/`unregister_device` and of the file
operations (open/read/write/release, the device buffer) is declared in the
header but not present in the sources, so those parts are modelled from the
specification, as marked on each definition.
-/

namespace SimpleDriver

/-- The observable kernel-side state the load/unload glue interacts with.
`registerResult` is the code the (externally implemented) `register_device`
would return on this invocation; `registerCalls`/`unregisterCalls` count how
often the glue invoked each entry point; `openSessions` is the number of
outstanding open sessions at the time of the call (the glue never reads it);
`log` records `printk` output. -/
structure KernelWorld where
  registerResult : Int
  registerCalls : Nat
  unregisterCalls : Nat
  openSessions : Nat
  log : List String
deriving Repr, DecidableEq

/-- `printk`: appends a line to the kernel log. -/
def printk (msg : String) (w : KernelWorld) : KernelWorld :=
  { w with log := w.log ++ [msg] }

/-- `register_device` as seen from `main.c`: declared in `device_file.h`
(`__must_check int register_device(void); /* 0 if OK */`), implemented
externally.  Its effect on the world is recorded as one more call, and its
return value is the world-supplied result code. -/
def register_device (w : KernelWorld) : Int × KernelWorld :=
  (w.registerResult, { w with registerCalls := w.registerCalls + 1 })

/-- `unregister_device` as seen from `main.c`: declared in `device_file.h`
(`void unregister_device(void);`), implemented externally.  It returns
nothing; its effect on the world is recorded as one more call. -/
def unregister_device (w : KernelWorld) : KernelWorld :=
  { w with unregisterCalls := w.unregisterCalls + 1 }

/-- `simple_driver_init` from `main.c`:
```
int result = 0;
printk(KERN_NOTICE "simplekernelmodule: Intialization started\n");
result = register_device();
return result;
``` -/
def simple_driver_init (w : KernelWorld) : Int × KernelWorld :=
  let result : Int := 0
  let w1 := printk "simplekernelmodule: Intialization started" w
  let (result, w2) := register_device w1
  (result, w2)

/-- `simple_driver_exit` from `main.c`:
```
printk(KERN_NOTICE "simplekernelmodule: Exiting\n");
unregister_device();
``` -/
def simple_driver_exit (w : KernelWorld) : Unit × KernelWorld :=
  let w1 := printk "simplekernelmodule: Exiting" w
  let w2 := unregister_device w1
  ((), w2)

/-- Modelled from the spec: the DeviceBuffer backing read/write (§3) — the
file-operations implementation is declared in `device_file.h` but absent from
the sources.  `data` is the byte sequence up to the current logical length;
`capacity` bounds it. -/
structure DeviceBuffer where
  data : List Nat
  capacity : Nat
deriving Repr, DecidableEq

/-- The buffer's current logical length. -/
def DeviceBuffer.length (b : DeviceBuffer) : Nat := b.data.length

/-- Modelled from the spec: the per-call errors of write (§4.2, §7).
`BadAddress` is kernel-detected (invalid caller memory) and outside the byte
accounting modelled here. -/
inductive WriteError where
  | NoSpace
  | BadAddress
deriving Repr, DecidableEq

/-- Modelled from the spec: `read(context, requestedLength, offset)` (§4.2),
absent from the sources — copies `min(requestedLength, buffer.length - offset)`
bytes starting at `offset` out of the buffer; the buffer is not mutated. -/
def deviceRead (b : DeviceBuffer) (requestedLength offset : Nat) : List Nat :=
  (b.data.drop offset).take requestedLength

/-- Modelled from the spec: `write(context, sourceBytes, offset)` (§4.2),
absent from the sources — fails with `NoSpace` when `offset ≥ capacity`;
otherwise copies `n = min(L, capacity - offset)` bytes into the buffer at
`offset` (zero-filling any gap past the prior end), extends the logical
length when the write passes the prior end, and returns `n` with the new
buffer. -/
def deviceWrite (b : DeviceBuffer) (src : List Nat) (offset : Nat) :
    Except WriteError (Nat × DeviceBuffer) :=
  if b.capacity ≤ offset then
    .error .NoSpace
  else
    let n := min src.length (b.capacity - offset)
    let newData := b.data.take offset ++
      List.replicate (offset - b.data.length) 0 ++
      src.take n ++ b.data.drop (offset + n)
    .ok (n, { data := newData, capacity := b.capacity })

/-- Modelled from the spec: the allocation errors of `register()` (§4.1, §7). -/
inductive RegisterError where
  | AllocationExhausted
  | NameConflict
  | NodeCreationFailed
deriving Repr, DecidableEq

/-- Modelled from the spec: the DeviceIdentity two-state lifecycle (§3) — it
exists in exactly one of the two states *unregistered* or *registered*
(holding the kernel-assigned major number). -/
inductive IdentityState where
  | Unregistered
  | Registered (major : Nat)
deriving Repr, DecidableEq

/-- Modelled from the spec: the kernel's character-device registry as seen by
`register()`/`unregister()` (§4.1), whose implementation is absent from the
sources.  `freeMajor` is the identifier the registry would hand out (`none`
when exhausted), `classTaken` says whether the requested class name is
already registered, `nodeOk` says whether device-node creation would
succeed, and `allocated` lists the identifiers this driver currently
holds in the registry. -/
structure KernelRegistry where
  freeMajor : Option Nat
  classTaken : Bool
  nodeOk : Bool
  allocated : List Nat
deriving Repr, DecidableEq

/-- Modelled from the spec: `register()` (§4.1) — requests a device identity,
then creates the visible node; on `NodeCreationFailed` the identity
allocation is rolled back before the error is reported, so no partial state
survives a failed call. -/
def registerDevice (k : KernelRegistry) :
    Except RegisterError Unit × KernelRegistry × IdentityState :=
  match k.freeMajor with
  | none => (.error .AllocationExhausted, k, .Unregistered)
  | some m =>
    if k.classTaken then
      (.error .NameConflict, k, .Unregistered)
    else
      let k1 := { k with allocated := m :: k.allocated }
      if k.nodeOk then
        (.ok (), k1, .Registered m)
      else
        (.error .NodeCreationFailed, { k1 with allocated := k.allocated },
          .Unregistered)

/-- Modelled from the spec: `unregister()` (§4.1) — releases the identity
produced by a prior successful `register()` back to the registry's pool and
leaves the device unregistered. -/
def unregisterDevice (k : KernelRegistry) (m : Nat) :
    KernelRegistry × IdentityState :=
  ({ k with allocated := k.allocated.erase m }, .Unregistered)

/-- Modelled from the spec: the events the open-count reacts to — a
successful `open()` and a completed `release()` (§4.2). -/
inductive SessionEvent where
  | opened
  | released
deriving Repr, DecidableEq

/-- Modelled from the spec: `open()` increments the aggregate open-count and
`release()` decrements it exactly once per matching close (§4.2). -/
def openCountStep (c : Int) (e : SessionEvent) : Int :=
  match e with
  | .opened => c + 1
  | .released => c - 1

/-- The aggregate open-count after a sequence of open/release events,
starting from 0. -/
def runOpenCount (evs : List SessionEvent) : Int :=
  evs.foldl openCountStep 0

/-- Number of successful opens in a trace. -/
def countOpened : List SessionEvent → Nat
  | [] => 0
  | .opened :: t => countOpened t + 1
  | .released :: t => countOpened t

/-- Number of completed releases in a trace. -/
def countReleased : List SessionEvent → Nat
  | [] => 0
  | .opened :: t => countReleased t
  | .released :: t => countReleased t + 1

/-- A trace is well formed when every release matches a prior open: in every
prefix the releases do not outnumber the opens (the kernel issues a
`release()` only for a file that was opened). -/
def wellFormedTrace (evs : List SessionEvent) : Prop :=
  ∀ i ≤ evs.length,
    countReleased (evs.take i) ≤ countOpened (evs.take i)

instance decWellFormedTrace (evs : List SessionEvent) :
    Decidable (wellFormedTrace evs) :=
  inferInstanceAs (Decidable (∀ i ≤ evs.length,
    countReleased (evs.take i) ≤ countOpened (evs.take i)))

end SimpleDriver

open SimpleDriver

/-- C1: the module-load entry point `simple_driver_init` calls
`register_device` exactly once (the call count rises by exactly one and the
unload entry point is not touched) and returns `register_device`'s code
unchanged as the module's own load result, so the load succeeds (result 0)
iff `register_device` succeeds. -/
theorem init_propagates_register (w : KernelWorld) :
    (simple_driver_init w).1 = w.registerResult ∧
    (simple_driver_init w).2.registerCalls = w.registerCalls + 1 ∧
    (simple_driver_init w).2.unregisterCalls = w.unregisterCalls ∧
    ((simple_driver_init w).1 = 0 ↔ w.registerResult = 0) := by
  refine ⟨rfl, rfl, rfl, Iff.rfl⟩

/-- C2: the module-unload entry point `simple_driver_exit` calls
`unregister_device` exactly once, for every world — in particular for every
number of outstanding open sessions, so it branches on no condition — and
never calls `register_device`. -/
theorem exit_calls_unregister_once (w : KernelWorld) :
    (simple_driver_exit w).2.unregisterCalls = w.unregisterCalls + 1 ∧
    (simple_driver_exit w).2.registerCalls = w.registerCalls ∧
    (simple_driver_exit w).2.openSessions = w.openSessions := by
  refine ⟨rfl, rfl, rfl⟩

/-- C4: `read` returns exactly `min(requestedLength, buffer.length - offset)`
bytes, and once the offset is at or past the current logical length it
returns 0 bytes; `deviceRead` is a pure function of the buffer, so every
repeated call at such an offset also returns 0 bytes until a write produces
a longer buffer. -/
theorem read_returns_min_bytes (b : DeviceBuffer) (req off : Nat) :
    (deviceRead b req off).length = min req (b.length - off) ∧
    (b.length ≤ off → deviceRead b req off = []) := by
  constructor
  · simp [deviceRead, DeviceBuffer.length]
  · intro h
    simp [deviceRead, List.drop_eq_nil_of_le h]

/-- Witness for C4 at a concrete input: a buffer of logical length 3 read at
offset 3 returns no bytes. -/
theorem read_returns_min_bytes_witness :
    deviceRead ⟨[1, 2, 3], 4⟩ 7 3 = [] :=
  (read_returns_min_bytes ⟨[1, 2, 3], 4⟩ 7 3).2 (by decide)

/-- C5: `write` fails with `NoSpace` exactly when `offset ≥ capacity` (and
then returns no updated buffer at all, so nothing is partially accepted);
for `offset < capacity` it succeeds, accepts exactly
`min(L, capacity - offset)` bytes, and the new logical length is the old one
extended to `offset + accepted` whenever the write passes the prior end. -/
theorem write_nospace_iff_and_accepts (b : DeviceBuffer) (src : List Nat)
    (off : Nat) :
    (deviceWrite b src off = .error .NoSpace ↔ b.capacity ≤ off) ∧
    (off < b.capacity →
      ∃ b' : DeviceBuffer,
        deviceWrite b src off =
          .ok (min src.length (b.capacity - off), b') ∧
        b'.length = max b.length (off + min src.length (b.capacity - off)) ∧
        b'.capacity = b.capacity) := by
  by_cases h : b.capacity ≤ off
  · refine ⟨⟨fun _ => h, fun _ => ?_⟩, fun hlt => absurd hlt (by omega)⟩
    simp [deviceWrite, h]
  · refine ⟨⟨fun hc => ?_, fun hc => absurd hc h⟩, fun _ => ?_⟩
    · simp only [deviceWrite, if_neg h] at hc
      exact Except.noConfusion hc
    · refine ⟨⟨b.data.take off ++ List.replicate (off - b.data.length) 0 ++
          src.take (min src.length (b.capacity - off)) ++
          b.data.drop (off + min src.length (b.capacity - off)),
          b.capacity⟩, ?_, ?_, rfl⟩
      · simp only [deviceWrite, if_neg h]
      · simp only [DeviceBuffer.length, List.length_append, List.length_take,
          List.length_replicate, List.length_drop]
        omega

/-- Witness for C5 at a concrete input: a buffer of capacity 4 holding 2
bytes, written 3 bytes at offset 2, accepts exactly 2 of them and grows to
length 4. -/
theorem write_nospace_iff_and_accepts_witness :
    ∃ b' : DeviceBuffer,
      deviceWrite ⟨[5, 6], 4⟩ [7, 8, 9] 2 = .ok (2, b') ∧
      b'.length = 4 ∧ b'.capacity = 4 :=
  (write_nospace_iff_and_accepts ⟨[5, 6], 4⟩ [7, 8, 9] 2).2 (by decide)

/-- C6: round-trip — for every byte sequence that fits in the buffer
(its length within a positive capacity), writing it at offset 0 accepts all
of it, and reading the same number of bytes back at offset 0 returns exactly
the bytes written, unmodified. -/
theorem write_then_read_roundtrip (b : DeviceBuffer) (src : List Nat)
    (hcap : 0 < b.capacity) (hfit : src.length ≤ b.capacity) :
    ∃ b' : DeviceBuffer,
      deviceWrite b src 0 = .ok (src.length, b') ∧
      deviceRead b' src.length 0 = src := by
  have h : ¬ b.capacity ≤ 0 := by omega
  have hn : min src.length (b.capacity - 0) = src.length := by omega
  refine ⟨⟨src ++ b.data.drop src.length, b.capacity⟩, ?_, ?_⟩
  · simp only [deviceWrite, if_neg h, hn]
    simp [List.take_length]
  · simp only [deviceRead, List.drop_zero]
    exact List.take_left src (b.data.drop src.length)

/-- Witness for C6 at a concrete input: writing [9, 8, 7] into an empty
buffer of capacity 5 and reading 3 bytes back returns [9, 8, 7]. -/
theorem write_then_read_roundtrip_witness :
    ∃ b' : DeviceBuffer,
      deviceWrite ⟨[], 5⟩ [9, 8, 7] 0 = .ok (3, b') ∧
      deviceRead b' 3 0 = [9, 8, 7] :=
  write_then_read_roundtrip ⟨[], 5⟩ [9, 8, 7] (by decide) (by decide)

/-- C8: every operation preserves `length ≤ capacity` and never shrinks the
logical length: a successful `write` keeps `length ≤ capacity`, leaves the
capacity unchanged and only grows the length; `read` (and open/release,
which never touch the buffer) return no buffer at all, so they cannot
change it. -/
theorem write_preserves_invariant (b : DeviceBuffer) (src : List Nat)
    (off n : Nat) (b' : DeviceBuffer) (hinv : b.length ≤ b.capacity)
    (h : deviceWrite b src off = .ok (n, b')) :
    b'.length ≤ b'.capacity ∧ b.length ≤ b'.length ∧
    b'.capacity = b.capacity := by
  by_cases hle : b.capacity ≤ off
  · simp only [deviceWrite, if_pos hle] at h
    exact Except.noConfusion h
  · simp only [deviceWrite, if_neg hle] at h
    rw [Except.ok.injEq, Prod.mk.injEq] at h
    obtain ⟨-, hb⟩ := h
    subst hb
    simp only [DeviceBuffer.length, List.length_append, List.length_take,
      List.length_replicate, List.length_drop, and_true] at hinv ⊢
    omega

/-- Witness for C8 at a concrete input: writing [1] at offset 1 of a buffer
of capacity 3 holding 2 bytes keeps the invariant and does not shrink the
length. -/
theorem write_preserves_invariant_witness :
    (⟨[4, 4, 1], 3⟩ : DeviceBuffer).length ≤ 3 ∧
    (⟨[4, 4], 3⟩ : DeviceBuffer).length ≤
      (⟨[4, 4, 1], 3⟩ : DeviceBuffer).length ∧
    (⟨[4, 4, 1], 3⟩ : DeviceBuffer).capacity = 3 :=
  write_preserves_invariant ⟨[4, 4], 3⟩ [1] 2 1 ⟨[4, 4, 1], 3⟩
    (by decide) rfl

/-- C10: the unload path has no error channel: `simple_driver_exit` returns
`Unit` (embedding the C `void`), its returned value is the same for every
world — in particular a world with open sessions outstanding behaves exactly
like one without — and `unregister_device` is still called once regardless,
so no failure (such as a reject-the-unload policy) can be signalled through
this interface. -/
theorem exit_has_no_error_channel (w : KernelWorld) :
    (simple_driver_exit w).1 =
      (simple_driver_exit { w with openSessions := 0 }).1 ∧
    (simple_driver_exit { w with openSessions := w.openSessions + 1 }).1 =
      (simple_driver_exit w).1 ∧
    (simple_driver_exit { w with openSessions := w.openSessions + 1
                          }).2.unregisterCalls = w.unregisterCalls + 1 := by
  refine ⟨rfl, rfl, rfl⟩

/-- Folding the open-count step over a trace adds the opens and subtracts
the releases. -/
theorem foldl_openCountStep (evs : List SessionEvent) (c : Int) :
    evs.foldl openCountStep c =
      c + (countOpened evs : Int) - countReleased evs := by
  induction evs generalizing c with
  | nil => simp [countOpened, countReleased]
  | cons e t ih =>
    cases e <;>
      simp only [List.foldl_cons, openCountStep, countOpened,
        countReleased, ih] <;>
      push_cast <;> ring

/-- C3: the DeviceIdentity is always in exactly one of the two states
`Unregistered`/`Registered`; from the unregistered load-time state a
successful `register()` yields `Registered` (holding the allocated
identifier in the registry), `unregister()` always yields `Unregistered`,
and a failed `register()` — including `NodeCreationFailed`, reached only
after the identity was allocated — leaves the state `Unregistered` and the
registry exactly as it was (the allocation is rolled back). -/
theorem identity_all_or_nothing (k : KernelRegistry) :
    (∀ s : IdentityState, s = .Unregistered ∨ ∃ m, s = .Registered m) ∧
    ((∃ u, (registerDevice k).1 = .ok u) →
      ∃ m, (registerDevice k).2.2 = .Registered m ∧
        (registerDevice k).2.1.allocated = m :: k.allocated) ∧
    (∀ e : RegisterError, (registerDevice k).1 = .error e →
      (registerDevice k).2.2 = .Unregistered ∧
      (registerDevice k).2.1 = k) ∧
    (∀ (k' : KernelRegistry) (m : Nat),
      (unregisterDevice k' m).2 = .Unregistered) := by
  refine ⟨?_, ?_, ?_, fun k' m => rfl⟩
  · intro s
    cases s with
    | Unregistered => exact Or.inl rfl
    | Registered m => exact Or.inr ⟨m, rfl⟩
  all_goals
    obtain ⟨fm, ct, no, al⟩ := k
    cases fm <;> cases ct <;> cases no <;> simp [registerDevice]

/-- Witness for C3 at a concrete input: on a registry with identifier 240
free, the class name available and node creation succeeding, `register()`
succeeds into the `Registered` state holding 240. -/
theorem identity_all_or_nothing_witness :
    ∃ m, (registerDevice ⟨some 240, false, true, []⟩).2.2 =
        .Registered m ∧
      (registerDevice ⟨some 240, false, true, []⟩).2.1.allocated =
        m :: (⟨some 240, false, true, []⟩ : KernelRegistry).allocated :=
  (identity_all_or_nothing ⟨some 240, false, true, []⟩).2.1 ⟨(), rfl⟩

/-- C7: for every well-formed sequence of open/release events (each release
matching a prior open), the aggregate open-count equals the number of
successful opens minus the number of completed releases, is never negative,
and each release decrements it exactly once (each open increments it exactly
once). -/
theorem open_count_accounting (evs : List SessionEvent)
    (hwf : wellFormedTrace evs) :
    runOpenCount evs =
      (countOpened evs : Int) - countReleased evs ∧
    0 ≤ runOpenCount evs ∧
    (∀ c : Int, openCountStep c .released = c - 1 ∧
      openCountStep c .opened = c + 1) := by
  have heq := foldl_openCountStep evs 0
  refine ⟨by rw [runOpenCount, heq]; ring, ?_, fun c => ⟨rfl, rfl⟩⟩
  have hle := hwf evs.length le_rfl
  rw [List.take_length] at hle
  rw [runOpenCount, heq]
  omega

/-- Witness for C7 at a concrete input: the trace open, open, release is
well formed and leaves the open-count at 2 - 1. -/
theorem open_count_accounting_witness :
    runOpenCount [.opened, .opened, .released] =
      (countOpened [.opened, .opened, .released] : Int) -
        countReleased [.opened, .opened, .released] ∧
    0 ≤ runOpenCount [.opened, .opened, .released] ∧
    (∀ c : Int,
      openCountStep c .released = c - 1 ∧
      openCountStep c .opened = c + 1) :=
  open_count_accounting [.opened, .opened, .released] (by decide)
